import Mathlib

/-!
Verification of the GitNexus façade components (ghclient.py, ai_helper.py,
app.py) via a shallow embedding in Lean 4.

The external providers (GitHub, Gemini, ElevenLabs) are modelled as records
of pure functions; each embedded operation returns its result together with
the ordered trace of provider calls it issued, so that "no network call is
attempted" and "the update carries the fetched sha" are provable statements.
Python strings are modelled as Lean `String`; Python `str.split`,
`str.replace`, `str.strip`, `re.split` are embedded as executable functions
over `List Char` below.
-/

namespace GitNexus

/-! ## Python string primitives -/

/-- Python `str.split(sep)` for a single-character separator, over char lists. -/
def splitChar (sep : Char) : List Char → List (List Char)
  | [] => [[]]
  | c :: cs =>
    match splitChar sep cs with
    | [] => [[c]]
    | r :: rs => if c = sep then [] :: r :: rs else (c :: r) :: rs

/-- Number of occurrences of a character in a char list. -/
def countChar (sep : Char) : List Char → Nat
  | [] => 0
  | c :: cs => (if c = sep then 1 else 0) + countChar sep cs

/-- Python `str.split(sep)` for a multi-character separator (leftmost,
non-overlapping), over char lists, structurally recursive on a fuel that is
initialised to the list length (each step consumes at least one character,
so the fuel never runs out). -/
def splitSubGo (sep : List Char) : Nat → List Char → List (List Char)
  | _, [] => [[]]
  | 0, l => [l]
  | fuel + 1, c :: cs =>
    if sep ≠ [] ∧ sep.isPrefixOf (c :: cs) then
      [] :: splitSubGo sep fuel ((c :: cs).drop sep.length)
    else
      match splitSubGo sep fuel cs with
      | [] => [[c]]
      | r :: rs => (c :: r) :: rs

def splitSub (sep l : List Char) : List (List Char) :=
  splitSubGo sep l.length l

/-- Python `str.replace(old, "")`: remove every (leftmost, non-overlapping)
occurrence of `sep`, over char lists, with the same fuel scheme. -/
def removeSubGo (sep : List Char) : Nat → List Char → List Char
  | _, [] => []
  | 0, l => l
  | fuel + 1, c :: cs =>
    if sep ≠ [] ∧ sep.isPrefixOf (c :: cs) then
      removeSubGo sep fuel ((c :: cs).drop sep.length)
    else
      c :: removeSubGo sep fuel cs

def removeSub (sep l : List Char) : List Char :=
  removeSubGo sep l.length l

/-- Python `str.strip()` over char lists: drop whitespace at both ends. -/
def stripL (l : List Char) : List Char :=
  ((l.dropWhile Char.isWhitespace).reverse.dropWhile Char.isWhitespace).reverse

/-- Sentence delimiter class of `re.split(r'[.!?]+', text)`. -/
def isSentenceDelim (c : Char) : Bool :=
  c = '.' || c = '!' || c = '?'

/-- Embeds `re.split(r'[.!?]+', text)`: a maximal run of delimiters is one split
point. The accumulator holds the current fragment (reversed); `none` means
the scanner is inside a delimiter run. -/
def reSplitGo : List Char → Option (List Char) → List String
  | [], some acc => [String.mk acc.reverse]
  | [], none => [""]
  | c :: cs, some acc =>
    if isSentenceDelim c then
      String.mk acc.reverse :: reSplitGo cs none
    else
      reSplitGo cs (some (c :: acc))
  | c :: cs, none =>
    if isSentenceDelim c then
      reSplitGo cs none
    else
      reSplitGo cs (some [c])

/-- Embeds `re.split(r'[.!?]+', text)` on a string. -/
def reSplitPunct (s : String) : List String :=
  reSplitGo s.data (some [])

/-! ## String-level wrappers -/

/-- Python `s.split(sep)` (string separator). -/
def pySplit (sep s : String) : List String :=
  (splitSub sep.data s.data).map String.mk

/-- Python `s.replace(old, "")`. -/
def pyRemove (sep s : String) : String :=
  String.mk (removeSub sep.data s.data)

/-- Python `s.strip()`. -/
def pyStrip (s : String) : String :=
  String.mk (stripL s.data)

/-- Python `s.split(c)` for a one-character separator string. -/
def pySplitChar (sep : Char) (s : String) : List String :=
  (splitChar sep s.data).map String.mk

/-- Number of non-overlapping occurrences of `m` in `s`, defined through the
split used by the parser (`split` yields one more part than occurrences). -/
def numOccurrences (m s : String) : Nat :=
  (pySplit m s).length - 1

/-- Python truthiness of an optional string (`None` and `""` are falsy). -/
def pyTruthy : Option String → Bool
  | none => false
  | some s => s ≠ ""

/-- Python `a or b` on optional strings. -/
def pyOr (a b : Option String) : Option String :=
  if pyTruthy a then a else b

/-! ## GitHub client data model (ghclient.py) -/

/-- A `github.GithubException`: HTTP status, optional `data['message']`,
and `str(e)` text. -/
structure GithubExc where
  status : Nat
  dataMessage : Option String
  text : String
  deriving DecidableEq

/-- Embeds `e.data.get('message', str(e))` as used by every error wrapper. -/
def ghMsg (e : GithubExc) : String :=
  e.dataMessage.getD e.text

/-- A raised Python error as observed by the caller of a client method:
a `ValueError`, a generic `Exception(msg)` produced by the wrapping
handlers, or an uncaught `GithubException`. -/
inductive PyErr where
  | valueError (msg : String)
  | wrapped (msg : String)
  | githubErr (e : GithubExc)
  deriving DecidableEq

/-- The `ContentFile` returned by `repo.get_contents(path)`. -/
structure FileContent where
  path : String
  sha : String
  decoded_content : String
  html_url : String
  size : Nat
  deriving DecidableEq

/-- The result of `repo.create_file` / `repo.update_file`: a dict holding a
commit (its sha) and a content file (its html_url). -/
structure CommitPayload where
  commit_sha : String
  content_html_url : String
  deriving DecidableEq

/-- A provider-side repository object. -/
structure RepoRec where
  name : String
  html_url : String
  «private» : Bool
  description : String
  deriving DecidableEq

/-- A provider-side issue object. -/
structure IssueRec where
  number : Nat
  html_url : String
  title : String
  state : String
  deriving DecidableEq

/-- One network call issued against the source-hosting provider. -/
inductive GHCall where
  | getRepo (full_name : String)
  | getContents (repo path : String)
  | createFile (repo path message content : String)
  | updateFile (repo path message content sha : String)
  | createIssue (repo title body : String)
  | listIssues (repo state : String)
  | createRepo (name : String) («private» : Bool) (description : String)
  deriving DecidableEq

/-- The source-hosting provider (PyGithub), modelled as pure responses;
every failure is a `GithubException`. -/
structure GHProvider where
  getRepo : String → Except GithubExc Unit
  getContents : String → String → Except GithubExc FileContent
  createFileP : String → String → String → String → Except GithubExc CommitPayload
  updateFileP : String → String → String → String → String → Except GithubExc CommitPayload
  createIssueP : String → String → String → Except GithubExc IssueRec
  listIssuesP : String → String → Except GithubExc (List IssueRec)
  createRepoP : String → Bool → String → Except GithubExc RepoRec

/-- Result dicts returned by the client methods. -/
structure RepoDict where
  name : String
  url : String
  «private» : Bool
  description : String
  deriving DecidableEq

structure IssueDict where
  number : Nat
  url : String
  title : String
  state : String
  deriving DecidableEq

structure CommitDict where
  commit_sha : String
  url : String
  action : String
  path : String
  deriving DecidableEq

structure ReadDict where
  path : String
  content : String
  url : String
  size : Nat
  deriving DecidableEq

/-- The `ValueError` raised by `_validate_repo_name`. -/
def invalidRepoErr : PyErr :=
  .valueError "Invalid repository name. Must be in format 'username/repo'"

/-- Embeds `GitHubClient._validate_repo_name` (ghclient.py:205-225): reject an
identifier that is falsy or has no `'/'`; then split on `'/'` and reject
unless there are exactly two parts, all truthy. -/
def validate_repo_name (repo_full_name : String) : Except PyErr Unit :=
  if repo_full_name = "" ∨ '/' ∉ repo_full_name.data then
    .error invalidRepoErr
  else
    let parts := splitChar '/' repo_full_name.data
    if parts.length ≠ 2 ∨ ∃ p ∈ parts, p = [] then
      .error invalidRepoErr
    else
      .ok ()

/-! ## GitHub client operations (each returns its result together with the
ordered trace of provider calls it issued) -/

/-- Embeds `GitHubClient.create_repo` (ghclient.py:28-54). The `private` argument
is forwarded to the provider as given (its Python default is `False`). -/
def create_repo (p : GHProvider) (name : String) («private» : Bool) (description : String) :
    Except PyErr RepoDict × List GHCall :=
  match p.createRepoP name «private» description with
  | .ok r =>
    (.ok { name := r.name, url := r.html_url, «private» := r.«private», description := r.description },
     [.createRepo name «private» description])
  | .error e =>
    (.error (.wrapped ("Failed to create repository: " ++ ghMsg e)),
     [.createRepo name «private» description])

/-- Embeds `GitHubClient.create_issue` (ghclient.py:77-100). -/
def create_issue (p : GHProvider) (repo_full_name title body : String) :
    Except PyErr IssueDict × List GHCall :=
  match validate_repo_name repo_full_name with
  | .error e => (.error e, [])
  | .ok _ =>
    match p.getRepo repo_full_name with
    | .error e =>
      (.error (.wrapped ("Failed to create issue: " ++ ghMsg e)), [.getRepo repo_full_name])
    | .ok _ =>
      match p.createIssueP repo_full_name title body with
      | .ok issue =>
        (.ok { number := issue.number, url := issue.html_url, title := issue.title, state := issue.state },
         [.getRepo repo_full_name, .createIssue repo_full_name title body])
      | .error e =>
        (.error (.wrapped ("Failed to create issue: " ++ ghMsg e)),
         [.getRepo repo_full_name, .createIssue repo_full_name title body])

/-- Embeds `GitHubClient.list_issues` (ghclient.py:102-127). -/
def list_issues (p : GHProvider) (repo_full_name state : String) :
    Except PyErr (List IssueDict) × List GHCall :=
  match validate_repo_name repo_full_name with
  | .error e => (.error e, [])
  | .ok _ =>
    match p.getRepo repo_full_name with
    | .error e =>
      (.error (.wrapped ("Failed to list issues: " ++ ghMsg e)), [.getRepo repo_full_name])
    | .ok _ =>
      match p.listIssuesP repo_full_name state with
      | .ok issues =>
        (.ok (issues.map fun issue =>
            { number := issue.number, title := issue.title, url := issue.html_url, state := issue.state }),
         [.getRepo repo_full_name, .listIssues repo_full_name state])
      | .error e =>
        (.error (.wrapped ("Failed to list issues: " ++ ghMsg e)),
         [.getRepo repo_full_name, .listIssues repo_full_name state])

/-- Embeds `GitHubClient.commit_file` (ghclient.py:129-176). The inner `try`
(ghclient.py:147-167) covers both `repo.get_contents` and
`repo.update_file`, so its `except GithubException` handler fires for a
failure of either call: on status 404 it creates the file — even when the
404 came from the update, after a successful existence check — on any other
status it re-raises, and the outer handler wraps any `GithubException`
into `Exception("Failed to commit file: ...")` (a failure of the
`create_file` call inside the handler also propagates to the outer wrap). -/
def commit_file (p : GHProvider) (repo_full_name path content message : String) :
    Except PyErr CommitDict × List GHCall :=
  match validate_repo_name repo_full_name with
  | .error e => (.error e, [])
  | .ok _ =>
    match p.getRepo repo_full_name with
    | .error e =>
      (.error (.wrapped ("Failed to commit file: " ++ ghMsg e)), [.getRepo repo_full_name])
    | .ok _ =>
      match p.getContents repo_full_name path with
      | .ok existing_file =>
        match p.updateFileP repo_full_name path message content existing_file.sha with
        | .ok result =>
          (.ok { commit_sha := result.commit_sha, url := result.content_html_url,
                 action := "updated", path := path },
           [.getRepo repo_full_name, .getContents repo_full_name path,
            .updateFile repo_full_name path message content existing_file.sha])
        | .error e =>
          if e.status = 404 then
            match p.createFileP repo_full_name path message content with
            | .ok result =>
              (.ok { commit_sha := result.commit_sha, url := result.content_html_url,
                     action := "created", path := path },
               [.getRepo repo_full_name, .getContents repo_full_name path,
                .updateFile repo_full_name path message content existing_file.sha,
                .createFile repo_full_name path message content])
            | .error e2 =>
              (.error (.wrapped ("Failed to commit file: " ++ ghMsg e2)),
               [.getRepo repo_full_name, .getContents repo_full_name path,
                .updateFile repo_full_name path message content existing_file.sha,
                .createFile repo_full_name path message content])
          else
            (.error (.wrapped ("Failed to commit file: " ++ ghMsg e)),
             [.getRepo repo_full_name, .getContents repo_full_name path,
              .updateFile repo_full_name path message content existing_file.sha])
      | .error e =>
        if e.status = 404 then
          match p.createFileP repo_full_name path message content with
          | .ok result =>
            (.ok { commit_sha := result.commit_sha, url := result.content_html_url,
                   action := "created", path := path },
             [.getRepo repo_full_name, .getContents repo_full_name path,
              .createFile repo_full_name path message content])
          | .error e2 =>
            (.error (.wrapped ("Failed to commit file: " ++ ghMsg e2)),
             [.getRepo repo_full_name, .getContents repo_full_name path,
              .createFile repo_full_name path message content])
        else
          (.error (.wrapped ("Failed to commit file: " ++ ghMsg e)),
           [.getRepo repo_full_name, .getContents repo_full_name path])

/-- Embeds `GitHubClient.read_file` (ghclient.py:178-203): any `GithubException`
with status 404 — from the repository lookup or the content fetch — becomes
`Exception("File not found: <path>")`; any other becomes the generic
`Exception("Failed to read file: ...")`. -/
def read_file (p : GHProvider) (repo_full_name path : String) :
    Except PyErr ReadDict × List GHCall :=
  match validate_repo_name repo_full_name with
  | .error e => (.error e, [])
  | .ok _ =>
    match p.getRepo repo_full_name with
    | .error e =>
      (if e.status = 404 then .error (.wrapped ("File not found: " ++ path))
       else .error (.wrapped ("Failed to read file: " ++ ghMsg e)),
       [.getRepo repo_full_name])
    | .ok _ =>
      match p.getContents repo_full_name path with
      | .error e =>
        (if e.status = 404 then .error (.wrapped ("File not found: " ++ path))
         else .error (.wrapped ("Failed to read file: " ++ ghMsg e)),
         [.getRepo repo_full_name, .getContents repo_full_name path])
      | .ok f =>
        (.ok { path := f.path, content := f.decoded_content, url := f.html_url, size := f.size },
         [.getRepo repo_full_name, .getContents repo_full_name path])

/-! ## Well-formed and malformed repository identifiers -/

/-- The spec's invariant: a `repo_full_name` matches the two-segment form
`owner/name` with both segments non-empty (and neither segment contains a
further `'/'`). -/
def wellFormedRepoId (s : String) : Prop :=
  ∃ a b : String, a ≠ "" ∧ b ≠ "" ∧ '/' ∉ a.data ∧ '/' ∉ b.data ∧ s = a ++ "/" ++ b

/-- The claim's enumeration of malformed identifiers: the empty string, no
`'/'`, more than one `'/'`, or two segments one of which is empty. -/
def malformedRepoId (s : String) : Prop :=
  s = "" ∨ '/' ∉ s.data ∨ 2 ≤ countChar '/' s.data ∨
    ∃ a b : String, '/' ∉ a.data ∧ '/' ∉ b.data ∧ (a = "" ∨ b = "") ∧ s = a ++ "/" ++ b

/-- A concrete provider used to instantiate witnesses: the repository
resolves, no file exists (every content fetch answers 404), and the write
operations succeed. -/
def pDummy : GHProvider where
  getRepo := fun _ => .ok ()
  getContents := fun _ _ => .error ⟨404, some "Not Found", "404 Not Found"⟩
  createFileP := fun _ _ _ _ => .ok ⟨"csha", "curl"⟩
  updateFileP := fun _ _ _ _ _ => .ok ⟨"usha", "uurl"⟩
  createIssueP := fun _ t _ => .ok ⟨1, "iurl", t, "open"⟩
  listIssuesP := fun _ _ => .ok []
  createRepoP := fun n b d => .ok ⟨n, "rurl", b, d⟩

/-! ## AI documentation generator (ai_helper.py) -/

/-- Process environment: the three credential variables read by the two
constructors (`GITHUB_TOKEN`, `GEMINI_API_KEY`, `ELEVENLABS_API_KEY`). -/
structure Env where
  github_token : Option String
  gemini_api_key : Option String
  elevenlabs_api_key : Option String

/-- The credential state of `AIDocumentationGenerator` after `__init__`
(ai_helper.py:16-37): the Gemini key resolves caller value over the
environment default; the ElevenLabs key is read from the environment only —
the constructor has no parameter for it. -/
structure AIState where
  gemini_key : Option String
  elevenlabs_key : Option String
  deriving DecidableEq

/-- Embeds `AIDocumentationGenerator.__init__(user_gemini_key)`. -/
def AIDocumentationGenerator_init (user_gemini_key : Option String) (env : Env) : AIState :=
  { gemini_key := pyOr user_gemini_key env.gemini_api_key
  , elevenlabs_key := env.elevenlabs_api_key }

/-- Embeds `GitHubClient.__init__` token resolution (ghclient.py:14-23):
`token or os.environ.get("GITHUB_TOKEN")`, then `ValueError` when falsy. -/
def GitHubClient_token (token : Option String) (env : Env) : Except PyErr String :=
  match pyOr token env.github_token with
  | some s =>
    if s = "" then
      .error (.valueError "GitHub token not provided. Set GITHUB_TOKEN environment variable.")
    else
      .ok s
  | none => .error (.valueError "GitHub token not provided. Set GITHUB_TOKEN environment variable.")

/-- One call issued against the AI providers. -/
inductive AICall where
  | gen (prompt : String)
  | tts (text : String)
  deriving DecidableEq

/-- The generative-text and speech providers; failures are generic
exceptions carrying `str(e)`. The speech provider returns a sequence of
audio byte chunks. -/
structure AIProviders where
  generateContent : String → Except String String
  ttsConvert : String → Except String (List (List Nat))

/-- The result dict of `generate_documentation`. -/
structure DocResult where
  documentation : String
  summary : String
  deriving DecidableEq

/-- The prompt built by `generate_documentation` (ai_helper.py:55-79),
with the three f-string interpolations. -/
def buildPrompt (code_content language filename : String) : String :=
  "Analyze this " ++ language ++ " code from file \"" ++ filename ++ "\":\n\n```" ++ language
    ++ "\n" ++ code_content
    ++ "\n```\n\nGenerate comprehensive documentation in README markdown format with these sections:\n1. **Overview** - What this code does (2-3 sentences)\n2. **Key Components** - Main functions/classes with brief descriptions\n3. **Usage Examples** - How to use this code (with code blocks)\n4. **Dependencies** - Required libraries/packages\n5. **Installation** - Setup instructions\n\nThen provide a STRICT 2-LINE SUMMARY (maximum 2 sentences, around 150-200 characters total) that captures the essence of this code.\n\nFormat your response EXACTLY like this:\n\n## Documentation\n\n[Full documentation here in markdown format]\n\n## Summary\n\n[Exactly 2 lines/sentences here - be concise and clear]\n"

/-- Embeds `AIDocumentationGenerator._extract_summary_fallback` (ai_helper.py:109-114):
split on `[.!?]+`, strip the fragments, keep the non-empty ones, join the
first two with `". "` and append `"."`. -/
def extract_summary_fallback (text : String) : String :=
  let sentences := reSplitPunct text
  let sentences2 := (sentences.map pyStrip).filter (fun s => s ≠ "")
  String.intercalate ". " (sentences2.take 2) ++ "."

/-- The response parsing of `generate_documentation` (ai_helper.py:86-99):
split on `"## Summary"`; with exactly two parts, the left part minus
`"## Documentation"` stripped is the documentation and the right part
stripped then collapsed to its first two non-empty stripped lines is the
summary; otherwise the whole response is the documentation and the summary
comes from the fallback. -/
def parseGenResponse (full_response : String) : String × String :=
  let parts := pySplit "## Summary" full_response
  if parts.length = 2 then
    let documentation := pyStrip (pyRemove "## Documentation" (parts.headD ""))
    let summary := pyStrip (parts.getD 1 "")
    let summary_lines := ((pySplitChar '\n' summary).map pyStrip).filter (fun l => l ≠ "")
    (documentation, String.intercalate " " (summary_lines.take 2))
  else
    (full_response, extract_summary_fallback full_response)

/-- Embeds `AIDocumentationGenerator.generate_documentation` (ai_helper.py:39-107). -/
def generate_documentation (st : AIState) (prov : AIProviders)
    (code_content language filename : String) :
    Except PyErr DocResult × List AICall :=
  if pyTruthy st.gemini_key = false then
    (.error (.valueError "Gemini API key not configured. Set GEMINI_API_KEY environment variable."),
     [])
  else
    let prompt := buildPrompt code_content language filename
    match prov.generateContent prompt with
    | .error e =>
      (.error (.wrapped ("Failed to generate documentation: " ++ e)), [.gen prompt])
    | .ok full_response =>
      let pr := parseGenResponse full_response
      (.ok { documentation := pr.1, summary := pr.2 }, [.gen prompt])

/-- Embeds `AIDocumentationGenerator.text_to_speech` (ai_helper.py:116-142):
configuration check, then one provider call whose chunk sequence is
concatenated into one byte buffer. -/
def text_to_speech (st : AIState) (prov : AIProviders) (text : String) :
    Except PyErr (List Nat) × List AICall :=
  if pyTruthy st.elevenlabs_key = false then
    (.error (.valueError "ElevenLabs API key not configured. Set ELEVENLABS_API_KEY environment variable."),
     [])
  else
    match prov.ttsConvert text with
    | .ok chunks => (.ok chunks.flatten, [.tts text])
    | .error e => (.error (.wrapped ("Failed to generate audio: " ++ e)), [.tts text])

/-- Embeds `AIDocumentationGenerator.process_file` (ai_helper.py:144-162):
`generate_documentation`, then `text_to_speech` on the summary. -/
def process_file (st : AIState) (prov : AIProviders)
    (file_content language filename : String) :
    Except PyErr (String × String × List Nat) × List AICall :=
  match generate_documentation st prov file_content language filename with
  | (.error e, tr) => (.error e, tr)
  | (.ok result, tr) =>
    match text_to_speech st prov result.summary with
    | (.error e, tr2) => (.error e, tr ++ tr2)
    | (.ok audio, tr2) => (.ok (result.documentation, result.summary, audio), tr ++ tr2)

/-! ## Spec-side descriptions of the parsing contract (written from the
spec's words, to be compared with the embedded parser) -/

/-- Spec: with exactly one marker, the documentation is the left part minus
the documentation-section marker text, trimmed. -/
def specSingleMarkerDocumentation (resp : String) : String :=
  pyStrip (pyRemove "## Documentation" ((pySplit "## Summary" resp).headD ""))

/-- Spec: with exactly one marker, the summary is the right part trimmed,
collapsed to its first two non-empty (trimmed) lines joined by one space. -/
def specSingleMarkerSummary (resp : String) : String :=
  let right := pyStrip ((pySplit "## Summary" resp).getD 1 "")
  let lines := ((pySplitChar '\n' right).map pyStrip).filter (fun l => l ≠ "")
  String.intercalate " " (lines.take 2)

/-- Spec: without exactly one marker, the summary is built from the first
two sentence fragments of the full text (split on `.`, `!`, `?`), each
trimmed, joined by `". "`, with a trailing period. -/
def specFallbackSummary (text : String) : String :=
  let frags := ((reSplitPunct text).map pyStrip).filter (fun s => s ≠ "")
  String.intercalate ". " (frags.take 2) ++ "."

/-! ## Dispatch layer (app.py) -/

/-- What an MCP handler hands back: a result dict, a returned
`{"error": ...}` record, or an exception it let propagate. -/
inductive McpOut (α : Type) where
  | result (a : α)
  | errorRecord (msg : String)
  | raised (e : PyErr)
  deriving DecidableEq

/-- Embeds `mcp_create_repo` (app.py:23-28): builds a client (an `{"error": ...}`
record when no token resolves) and calls `create_repo` with
`private=False` hard-coded. -/
def mcp_create_repo (p : GHProvider) (env : Env) (name description : String)
    (token : Option String) : McpOut RepoDict × List GHCall :=
  match GitHubClient_token token env with
  | .error _ => (.errorRecord "GitHub token not configured", [])
  | .ok _ =>
    match create_repo p name false description with
    | (.ok d, tr) => (.result d, tr)
    | (.error e, tr) => (.raised e, tr)

/-! ## Concrete providers for witnesses and counterexamples -/

/-- A provider that echoes the repository-creation request back, the way the
real service materialises the requested visibility. -/
def pEcho : GHProvider where
  getRepo := fun _ => .ok ()
  getContents := fun _ _ => .error ⟨404, some "Not Found", "404 Not Found"⟩
  createFileP := fun _ _ _ _ => .ok ⟨"csha", "curl"⟩
  updateFileP := fun _ _ _ _ _ => .ok ⟨"usha", "uurl"⟩
  createIssueP := fun _ t _ => .ok ⟨1, "iurl", t, "open"⟩
  listIssuesP := fun _ _ => .ok []
  createRepoP := fun n b d => .ok ⟨n, "https://example.invalid/" ++ n, b, d⟩

/-- A provider whose existence check fails with a non-404 status. -/
def p500 : GHProvider where
  getRepo := fun _ => .ok ()
  getContents := fun _ _ => .error ⟨500, some "boom", "500 boom"⟩
  createFileP := fun _ _ _ _ => .ok ⟨"csha", "curl"⟩
  updateFileP := fun _ _ _ _ _ => .ok ⟨"usha", "uurl"⟩
  createIssueP := fun _ t _ => .ok ⟨1, "iurl", t, "open"⟩
  listIssuesP := fun _ _ => .ok []
  createRepoP := fun n b d => .ok ⟨n, "rurl", b, d⟩

/-- A provider whose repository lookup itself fails with 404 (the
repository does not exist). -/
def pRepo404 : GHProvider where
  getRepo := fun _ => .error ⟨404, some "Not Found", "404 Not Found"⟩
  getContents := fun _ _ => .error ⟨404, some "Not Found", "404 Not Found"⟩
  createFileP := fun _ _ _ _ => .ok ⟨"csha", "curl"⟩
  updateFileP := fun _ _ _ _ _ => .ok ⟨"usha", "uurl"⟩
  createIssueP := fun _ t _ => .ok ⟨1, "iurl", t, "open"⟩
  listIssuesP := fun _ _ => .ok []
  createRepoP := fun n b d => .ok ⟨n, "rurl", b, d⟩

/-- A provider on which the target path exists and the update succeeds. -/
def pExisting : GHProvider where
  getRepo := fun _ => .ok ()
  getContents := fun _ _ => .ok ⟨"f.txt", "sha-old", "old content", "https://example.invalid/f.txt", 11⟩
  createFileP := fun _ _ _ _ => .ok ⟨"csha", "curl"⟩
  updateFileP := fun _ _ _ _ _ => .ok ⟨"usha", "uurl"⟩
  createIssueP := fun _ t _ => .ok ⟨1, "iurl", t, "open"⟩
  listIssuesP := fun _ _ => .ok []
  createRepoP := fun n b d => .ok ⟨n, "rurl", b, d⟩

/-- A provider on which the target path exists (the existence check
succeeds) but the update call itself fails with status 404, while a create
succeeds. -/
def pUpd404 : GHProvider where
  getRepo := fun _ => .ok ()
  getContents := fun _ _ => .ok ⟨"f.txt", "sha-old", "old content", "https://example.invalid/f.txt", 11⟩
  createFileP := fun _ _ _ _ => .ok ⟨"csha", "curl"⟩
  updateFileP := fun _ _ _ _ _ => .error ⟨404, some "Not Found", "404 Not Found"⟩
  createIssueP := fun _ t _ => .ok ⟨1, "iurl", t, "open"⟩
  listIssuesP := fun _ _ => .ok []
  createRepoP := fun n b d => .ok ⟨n, "rurl", b, d⟩

/-! ## Stateful backend model for the commit/read round trip -/

/-- The files of the target repository: newest association first. -/
structure RepoState where
  files : List (String × String)

/-- The backend's content hash for a stored blob (any function injective on
the stored content serves the concurrency-token role in the model). -/
def shaOf (content : String) : String :=
  "sha-" ++ content

def lookupFile (st : RepoState) (path : String) : Option String :=
  (st.files.find? (fun pr => pr.1 == path)).map (fun pr => pr.2)

/-- The backend state after a create or update stored `content` at `path`. -/
def setFile (st : RepoState) (path content : String) : RepoState :=
  ⟨(path, content) :: st.files⟩

/-- Modelled from the spec: the source-hosting backend of the consumed
contract (spec section 6 — get file contents by path with 404 signalling
absence; create file; update file accepting the prior content hash as the
concurrency token). The backend is a third-party service, absent from src/;
the transport's UTF-8 encode/decode is the identity here, so file contents
are stored as decoded text. -/
def mkProvider (st : RepoState) : GHProvider where
  getRepo := fun _ => .ok ()
  getContents := fun _ path =>
    match lookupFile st path with
    | some c => .ok { path := path, sha := shaOf c, decoded_content := c,
                      html_url := "https://example.invalid/" ++ path, size := c.utf8ByteSize }
    | none => .error ⟨404, some "Not Found", "404 Not Found"⟩
  createFileP := fun _ path _ content =>
    match lookupFile st path with
    | none => .ok ⟨"commit-" ++ shaOf content, "https://example.invalid/" ++ path⟩
    | some _ => .error ⟨422, some "Invalid request", "422"⟩
  updateFileP := fun _ path _ content sha =>
    match lookupFile st path with
    | some cur =>
      if sha = shaOf cur then
        .ok ⟨"commit-" ++ shaOf content, "https://example.invalid/" ++ path⟩
      else
        .error ⟨409, some "Conflict", "409 Conflict"⟩
    | none => .error ⟨404, some "Not Found", "404 Not Found"⟩
  createIssueP := fun _ t _ => .ok ⟨1, "https://example.invalid/issues/1", t, "open"⟩
  listIssuesP := fun _ _ => .ok []
  createRepoP := fun n b d => .ok ⟨n, "https://example.invalid/" ++ n, b, d⟩

def exceptOk {ε α : Type} : Except ε α → Bool
  | .ok _ => true
  | .error _ => false

/-- Runs `commit_file` against the modelled backend, together with the
backend state it leaves behind: a successful commit stores the committed
content at the path (spec section 6 consumed contract). -/
def ghWorldCommit (st : RepoState) (repo_full_name path content message : String) :
    Except PyErr CommitDict × RepoState :=
  let r := (commit_file (mkProvider st) repo_full_name path content message).1
  match r with
  | .ok d => (.ok d, setFile st path content)
  | .error e => (.error e, st)

/-! ## Helper lemmas about the string primitives and validation -/

theorem splitChar_ne_nil (sep : Char) (l : List Char) : splitChar sep l ≠ [] := by
  induction l with
  | nil => simp [splitChar]
  | cons c cs ih =>
    simp only [splitChar]
    cases h : splitChar sep cs with
    | nil => simp
    | cons r rs =>
      by_cases hc : c = sep <;> simp [hc]

theorem length_splitChar (sep : Char) (l : List Char) :
    (splitChar sep l).length = countChar sep l + 1 := by
  induction l with
  | nil => simp [splitChar, countChar]
  | cons c cs ih =>
    simp only [splitChar, countChar]
    cases h : splitChar sep cs with
    | nil => exact absurd h (splitChar_ne_nil sep cs)
    | cons r rs =>
      rw [h] at ih
      by_cases hc : c = sep <;> simp [hc, List.length] at ih ⊢ <;> omega

theorem splitChar_of_not_mem {sep : Char} {l : List Char} (h : sep ∉ l) :
    splitChar sep l = [l] := by
  induction l with
  | nil => simp [splitChar]
  | cons c cs ih =>
    simp only [List.mem_cons, not_or] at h
    simp only [splitChar, ih h.2]
    simp [Ne.symm h.1]

theorem splitChar_append {sep : Char} {x : List Char} (y : List Char) (hx : sep ∉ x) :
    splitChar sep (x ++ sep :: y) = x :: splitChar sep y := by
  induction x with
  | nil =>
    simp only [List.nil_append, splitChar]
    cases h : splitChar sep y with
    | nil => exact absurd h (splitChar_ne_nil sep y)
    | cons r rs => simp
  | cons d ds ih =>
    simp only [List.mem_cons, not_or] at hx
    simp only [List.cons_append, splitChar]
    rw [List.append_eq, ih hx.2]
    simp [Ne.symm hx.1]

theorem splitSubGo_ne_nil (sep : List Char) (fuel : Nat) (l : List Char) :
    splitSubGo sep fuel l ≠ [] := by
  cases l with
  | nil => cases fuel <;> simp [splitSubGo]
  | cons c cs =>
    cases fuel with
    | zero => simp [splitSubGo]
    | succ n =>
      rw [splitSubGo]
      split
      · simp
      · cases hr : splitSubGo sep n cs <;> simp

theorem splitSub_ne_nil (sep : List Char) (l : List Char) : splitSub sep l ≠ [] :=
  splitSubGo_ne_nil sep l.length l

theorem data_slash : ("/" : String).data = ['/'] := rfl

theorem string_eq_empty_iff {s : String} : s = "" ↔ s.data = [] := by
  rw [String.ext_iff]

/-- A well-formed identifier passes `_validate_repo_name`. -/
theorem validate_ok_of_wellFormed {s : String} (h : wellFormedRepoId s) :
    validate_repo_name s = .ok () := by
  obtain ⟨a, b, ha, hb, hsa, hsb, rfl⟩ := h
  have hdata : (a ++ "/" ++ b).data = a.data ++ '/' :: b.data := by
    simp [String.data_append, data_slash]
  have hne : (a ++ "/" ++ b) ≠ "" := by
    intro hh
    rw [string_eq_empty_iff, hdata] at hh
    simp at hh
  have hmem : '/' ∈ (a ++ "/" ++ b).data := by
    rw [hdata]; simp
  have hsplit : splitChar '/' ((a ++ "/" ++ b).data) = [a.data, b.data] := by
    rw [hdata, splitChar_append _ hsa, splitChar_of_not_mem hsb]
  rw [validate_repo_name, if_neg (by simp [hne, hmem])]
  have hadata : a.data ≠ [] := fun hh => ha (string_eq_empty_iff.2 hh)
  have hbdata : b.data ≠ [] := fun hh => hb (string_eq_empty_iff.2 hh)
  simp only [hsplit]
  rw [if_neg]
  simp [hadata, hbdata]

/-- A malformed identifier is rejected by `_validate_repo_name` with the
`ValueError`. -/
theorem validate_err_of_malformed {s : String} (h : malformedRepoId s) :
    validate_repo_name s = .error invalidRepoErr := by
  rcases h with h | h | h | ⟨a, b, hsa, hsb, hab, rfl⟩
  · rw [validate_repo_name, if_pos (Or.inl h)]
  · rw [validate_repo_name, if_pos (Or.inr h)]
  · by_cases hfirst : s = "" ∨ '/' ∉ s.data
    · rw [validate_repo_name, if_pos hfirst]
    · rw [validate_repo_name, if_neg hfirst]
      have hlen : (splitChar '/' s.data).length = countChar '/' s.data + 1 :=
        length_splitChar _ _
      rw [if_pos]
      exact Or.inl (by omega)
  · have hdata : (a ++ "/" ++ b).data = a.data ++ '/' :: b.data := by
      simp [String.data_append, data_slash]
    by_cases hfirst : (a ++ "/" ++ b) = "" ∨ '/' ∉ (a ++ "/" ++ b).data
    · rw [validate_repo_name, if_pos hfirst]
    · rw [validate_repo_name, if_neg hfirst]
      have hsplit : splitChar '/' ((a ++ "/" ++ b).data) = [a.data, b.data] := by
        rw [hdata, splitChar_append _ hsa, splitChar_of_not_mem hsb]
      simp only [hsplit]
      rw [if_pos]
      refine Or.inr ?_
      rcases hab with rfl | rfl
      · exact ⟨[], by simp [string_eq_empty_iff.1 rfl]⟩
      · exact ⟨[], by simp [string_eq_empty_iff.1 rfl]⟩

end GitNexus

namespace GitNexusClaims

open GitNexus

/-- C1 counterexample: the inner handler of `commit_file`
(ghclient.py:147-167) also catches the update call's failures, so with a
well-formed repoId and a provider on which the path exists — the existence
check succeeds, returning the file with its sha — an update failure with
status 404 falls back to a create and the operation returns
`action = "created"`, refuting the claim that a commit on an already
existing path returns `action = "updated"`. -/
theorem commit_file_update404_creates :
    pUpd404.getContents "a/b" "f.txt" =
      .ok ⟨"f.txt", "sha-old", "old content", "https://example.invalid/f.txt", 11⟩ ∧
    commit_file pUpd404 "a/b" "f.txt" "new" "msg" =
      (.ok { commit_sha := "csha", url := "curl", action := "created", path := "f.txt" },
       [.getRepo "a/b", .getContents "a/b" "f.txt",
        .updateFile "a/b" "f.txt" "msg" "new" "sha-old",
        .createFile "a/b" "f.txt" "msg" "new"]) :=
  ⟨rfl, rfl⟩

/-- C1 (amended): for every well-formed repoId, `commit_file` performs a
read-before-write existence check: when the content fetch succeeds it
issues an update carrying the fetched file's sha as the concurrency token,
and returns `action = "updated"` when that update succeeds; when the fetch
fails with status 404 it issues a create and returns `action = "created"`;
and — the inner handler covering the update call as well — an update
failure with status 404 likewise falls back to a create and returns
`action = "created"` even though the path existed at check time. The call
trace shows the existence check precedes the write in every branch. -/
theorem commit_file_branches (p : GHProvider) (repoId path content message : String)
    (hwf : wellFormedRepoId repoId) (hrepo : p.getRepo repoId = .ok ()) :
    (∀ f r, p.getContents repoId path = .ok f →
        p.updateFileP repoId path message content f.sha = .ok r →
        commit_file p repoId path content message =
          (.ok { commit_sha := r.commit_sha, url := r.content_html_url,
                 action := "updated", path := path },
           [.getRepo repoId, .getContents repoId path,
            .updateFile repoId path message content f.sha]))
  ∧ (∀ e r, p.getContents repoId path = .error e → e.status = 404 →
        p.createFileP repoId path message content = .ok r →
        commit_file p repoId path content message =
          (.ok { commit_sha := r.commit_sha, url := r.content_html_url,
                 action := "created", path := path },
           [.getRepo repoId, .getContents repoId path,
            .createFile repoId path message content]))
  ∧ (∀ f e r, p.getContents repoId path = .ok f →
        p.updateFileP repoId path message content f.sha = .error e → e.status = 404 →
        p.createFileP repoId path message content = .ok r →
        commit_file p repoId path content message =
          (.ok { commit_sha := r.commit_sha, url := r.content_html_url,
                 action := "created", path := path },
           [.getRepo repoId, .getContents repoId path,
            .updateFile repoId path message content f.sha,
            .createFile repoId path message content])) := by
  refine ⟨?_, ?_, ?_⟩
  · intro f r hf hu
    simp [commit_file, validate_ok_of_wellFormed hwf, hrepo, hf, hu]
  · intro e r he h404 hc
    simp [commit_file, validate_ok_of_wellFormed hwf, hrepo, he, h404, hc]
  · intro f e r hf hu h404 hc
    simp [commit_file, validate_ok_of_wellFormed hwf, hrepo, hf, hu, h404, hc]

/-- Witness for C1 (amended) at concrete inputs: on `pExisting` (the path
exists, the update succeeds) committing yields `action = "updated"` with
the update call carrying the fetched sha. -/
theorem commit_file_branches_witness :
    commit_file pExisting "a/b" "f.txt" "new" "msg" =
      (.ok { commit_sha := "usha", url := "uurl", action := "updated", path := "f.txt" },
       [.getRepo "a/b", .getContents "a/b" "f.txt",
        .updateFile "a/b" "f.txt" "msg" "new" "sha-old"]) :=
  (commit_file_branches pExisting "a/b" "f.txt" "new" "msg"
      ⟨"a", "b", by decide, by decide, by decide, by decide, by decide⟩ rfl).1
    ⟨"f.txt", "sha-old", "old content", "https://example.invalid/f.txt", 11⟩
    ⟨"usha", "uurl"⟩ rfl rfl

/-- C2: every malformed repository identifier (empty, no slash, more than
one slash, or an empty segment) makes each repoId-taking operation —
`create_issue`, `list_issues`, `commit_file`, `read_file` — fail with the
`ValueError` and an empty call trace (no network call); every identifier of
the two-segment form `owner/name` with both segments non-empty passes
validation. -/
theorem repo_id_validation (s : String) :
    (malformedRepoId s →
      ∀ (p : GHProvider) (title body state path content message : String),
        create_issue p s title body = (.error invalidRepoErr, []) ∧
        list_issues p s state = (.error invalidRepoErr, []) ∧
        commit_file p s path content message = (.error invalidRepoErr, []) ∧
        read_file p s path = (.error invalidRepoErr, []))
  ∧ (wellFormedRepoId s → validate_repo_name s = .ok ()) := by
  constructor
  · intro h p title body state path content message
    have hv := validate_err_of_malformed h
    exact ⟨by simp [create_issue, hv], by simp [list_issues, hv],
           by simp [commit_file, hv], by simp [read_file, hv]⟩
  · exact validate_ok_of_wellFormed

/-- Witness for C2 at concrete inputs: `"ab"` (no slash) is rejected by all
four operations with no provider call, and `"a/b"` passes validation. -/
theorem repo_id_validation_witness :
    (create_issue pDummy "ab" "t" "b" = (.error invalidRepoErr, []) ∧
     list_issues pDummy "ab" "open" = (.error invalidRepoErr, []) ∧
     commit_file pDummy "ab" "p" "c" "m" = (.error invalidRepoErr, []) ∧
     read_file pDummy "ab" "p" = (.error invalidRepoErr, [])) ∧
    validate_repo_name "a/b" = .ok () :=
  ⟨(repo_id_validation "ab").1 (Or.inr (Or.inl (by decide))) pDummy "t" "b" "open" "p" "c" "m",
   (repo_id_validation "a/b").2 ⟨"a", "b", by decide, by decide, by decide, by decide, by decide⟩⟩

/-- The split used by the parser always yields at least one part. -/
theorem pySplit_length_pos (sep s : String) : 1 ≤ (GitNexus.pySplit sep s).length := by
  rw [pySplit, List.length_map]
  cases h : splitSub sep.data s.data with
  | nil => exact absurd h (splitSub_ne_nil _ _)
  | cons r rs => simp

/-- With exactly one marker occurrence, the embedded parser computes the
spec-side documentation and summary. -/
theorem parse_single_marker {resp : String}
    (hocc : numOccurrences "## Summary" resp = 1) :
    parseGenResponse resp =
      (specSingleMarkerDocumentation resp, specSingleMarkerSummary resp) := by
  have hpos := pySplit_length_pos "## Summary" resp
  rw [numOccurrences] at hocc
  have hlen : (pySplit "## Summary" resp).length = 2 := by omega
  rw [parseGenResponse, if_pos hlen]
  rfl

/-- Without exactly one marker occurrence, the embedded parser falls back. -/
theorem parse_no_single_marker {resp : String}
    (hocc : numOccurrences "## Summary" resp ≠ 1) :
    parseGenResponse resp = (resp, specFallbackSummary resp) := by
  have hlen : (pySplit "## Summary" resp).length ≠ 2 := by
    intro h
    exact hocc (by rw [numOccurrences, h])
  rw [parseGenResponse, if_neg hlen]
  rfl

/-- C3: for every provider response containing exactly one occurrence of
`"## Summary"`, `generate_documentation` returns the left part with the
`"## Documentation"` marker text removed and trimmed as the documentation,
and the right part trimmed and collapsed to its first two non-empty lines
joined by a single space as the summary. -/
theorem gen_doc_single_marker (st : AIState) (prov : AIProviders)
    (code language filename resp : String)
    (hkey : pyTruthy st.gemini_key = true)
    (hresp : prov.generateContent (buildPrompt code language filename) = .ok resp)
    (hocc : numOccurrences "## Summary" resp = 1) :
    generate_documentation st prov code language filename =
      (.ok { documentation := specSingleMarkerDocumentation resp,
             summary := specSingleMarkerSummary resp },
       [.gen (buildPrompt code language filename)]) := by
  simp [generate_documentation, hkey, hresp, parse_single_marker hocc]

/-- Witness for C3 at a concrete response with one marker: the left part
loses the `"## Documentation"` text and the summary collapses to the first
two non-empty lines. -/
theorem gen_doc_single_marker_witness :
    generate_documentation ⟨some "g", some "e"⟩
        ⟨fun _ => .ok "## Documentation\nDoc body\n## Summary\nLine one.\n\nLine two.\nLine three.", fun _ => .ok []⟩
        "c" "python" "f.py" =
      (.ok { documentation := "Doc body", summary := "Line one. Line two." },
       [.gen (buildPrompt "c" "python" "f.py")]) := by
  have h := gen_doc_single_marker ⟨some "g", some "e"⟩
    ⟨fun _ => .ok "## Documentation\nDoc body\n## Summary\nLine one.\n\nLine two.\nLine three.", fun _ => .ok []⟩
    "c" "python" "f.py" "## Documentation\nDoc body\n## Summary\nLine one.\n\nLine two.\nLine three."
    (by decide) rfl (by decide)
  rw [h]
  rfl

/-- C4: for every provider response with zero or at least two occurrences of
`"## Summary"`, `generate_documentation` returns the entire raw response as
the documentation and the fallback summary: the first two non-empty trimmed
sentence fragments (split on `.`, `!`, `?`), joined by `". "` with a
trailing period. -/
theorem gen_doc_fallback (st : AIState) (prov : AIProviders)
    (code language filename resp : String)
    (hkey : pyTruthy st.gemini_key = true)
    (hresp : prov.generateContent (buildPrompt code language filename) = .ok resp)
    (hocc : numOccurrences "## Summary" resp ≠ 1) :
    generate_documentation st prov code language filename =
      (.ok { documentation := resp, summary := specFallbackSummary resp },
       [.gen (buildPrompt code language filename)]) := by
  simp [generate_documentation, hkey, hresp, parse_no_single_marker hocc]

/-- Witness for C4 at a concrete response with no marker: the raw response
is the documentation and the summary is the first two sentence fragments
with `". "` and a final period. -/
theorem gen_doc_fallback_witness :
    generate_documentation ⟨some "g", some "e"⟩
        ⟨fun _ => .ok "First part! Second bit? Third.", fun _ => .ok []⟩
        "c" "python" "f.py" =
      (.ok { documentation := "First part! Second bit? Third.",
             summary := "First part. Second bit." },
       [.gen (buildPrompt "c" "python" "f.py")]) := by
  have h := gen_doc_fallback ⟨some "g", some "e"⟩
    ⟨fun _ => .ok "First part! Second bit? Third.", fun _ => .ok []⟩
    "c" "python" "f.py" "First part! Second bit? Third." (by decide) rfl (by decide)
  rw [h]
  rfl

/-- The trace of `generate_documentation` never contains a speech call: it
is empty (configuration failure) or the single text-generation call. -/
theorem gen_doc_trace_shape (st : AIState) (prov : AIProviders)
    (code language filename : String) :
    (generate_documentation st prov code language filename).2 = [] ∨
    (generate_documentation st prov code language filename).2 =
      [AICall.gen (buildPrompt code language filename)] := by
  rw [generate_documentation]
  by_cases hk : pyTruthy st.gemini_key = false
  · rw [if_pos hk]; left; rfl
  · rw [if_neg hk]
    cases hr : prov.generateContent (buildPrompt code language filename) with
    | error e => right; simp [hr]
    | ok r => right; simp [hr]

/-- C6: if the text-generation call inside `process_file` fails, the speech
provider is never called and no audio is produced — the same failure is
returned with a trace free of speech calls; and a successful `process_file`
returns exactly the documentation, the summary, and the audio obtained from
the two sequenced calls. -/
theorem process_file_fail_fast (st : AIState) (prov : AIProviders)
    (code language filename : String) :
    (∀ e tr, generate_documentation st prov code language filename = (.error e, tr) →
        process_file st prov code language filename = (.error e, tr) ∧
        ∀ t, AICall.tts t ∉ tr)
  ∧ (∀ out tr, process_file st prov code language filename = (.ok out, tr) →
        ∃ d tr1 tr2, generate_documentation st prov code language filename = (.ok d, tr1) ∧
          text_to_speech st prov d.summary = (.ok out.2.2, tr2) ∧
          out.1 = d.documentation ∧ out.2.1 = d.summary ∧ tr = tr1 ++ tr2) := by
  constructor
  · intro e tr h
    refine ⟨by simp [process_file, h], ?_⟩
    intro t
    have hs := gen_doc_trace_shape st prov code language filename
    rw [h] at hs
    rcases hs with hs | hs <;> simp at hs <;> simp [hs]
  · intro out tr h
    rcases hg : generate_documentation st prov code language filename with ⟨g, tr1⟩
    cases g with
    | error e => rw [process_file, hg] at h; simp at h
    | ok d =>
      rcases ht : text_to_speech st prov d.summary with ⟨t, tr2⟩
      cases t with
      | error e =>
        rw [process_file, hg] at h
        simp only [ht] at h
        simp at h
      | ok audio =>
        rw [process_file, hg] at h
        simp only [ht, Prod.mk.injEq, Except.ok.injEq] at h
        obtain ⟨h1, h2⟩ := h
        refine ⟨d, tr1, tr2, rfl, ?_, ?_, ?_, h2.symm⟩
        · rw [← h1]; exact ht
        · rw [← h1]
        · rw [← h1]

/-- Witness for C6 at concrete inputs: with a failing text-generation
provider, `process_file` propagates the wrapped failure and the speech
provider is not called. -/
theorem process_file_fail_fast_witness :
    process_file ⟨some "g", some "e"⟩ ⟨fun _ => .error "boom", fun _ => .ok []⟩
        "c" "python" "f.py" =
      (.error (.wrapped "Failed to generate documentation: boom"),
       [.gen (buildPrompt "c" "python" "f.py")]) ∧
    AICall.tts "x" ∉ [AICall.gen (buildPrompt "c" "python" "f.py")] := by
  have h := (process_file_fail_fast ⟨some "g", some "e"⟩
      ⟨fun _ => .error "boom", fun _ => .ok []⟩ "c" "python" "f.py").1
    (.wrapped "Failed to generate documentation: boom")
    [.gen (buildPrompt "c" "python" "f.py")] (by rw [generate_documentation]; rfl)
  exact ⟨h.1, h.2 "x"⟩

/-- C8 counterexample: the speech-synthesis credential is not overridable by
any explicit credential parameter — the constructor's only parameter is the
Gemini key; with a caller key supplied, the resolved ElevenLabs key is still
the environment value (and the caller key only lands in the Gemini slot). -/
theorem speech_key_not_overridable :
    (AIDocumentationGenerator_init (some "caller-key")
        ⟨some "env-token", some "env-gemini", some "env-eleven"⟩).elevenlabs_key
        = some "env-eleven" ∧
    (AIDocumentationGenerator_init (some "caller-key")
        ⟨some "env-token", some "env-gemini", some "env-eleven"⟩).gemini_key
        = some "caller-key" := by
  constructor <;> decide

/-- C8 (amended): the caller-supplied credential takes precedence over the
environment default for the source-host token and the generative-text key;
the speech key is resolved from the environment only, unaffected by the
constructor's parameter. -/
theorem credential_resolution (c : String) (env : Env) (hc : c ≠ "") :
    GitHubClient_token (some c) env = .ok c ∧
    (AIDocumentationGenerator_init (some c) env).gemini_key = some c ∧
    ∀ gk : Option String,
      (AIDocumentationGenerator_init gk env).elevenlabs_key = env.elevenlabs_api_key := by
  refine ⟨?_, ?_, fun gk => rfl⟩
  · simp [GitHubClient_token, pyOr, pyTruthy, hc]
  · simp [AIDocumentationGenerator_init, pyOr, pyTruthy, hc]

/-- Witness for C8 (amended) at concrete inputs. -/
theorem credential_resolution_witness :
    GitHubClient_token (some "k") ⟨some "envtok", none, some "e"⟩ = .ok "k" ∧
    (AIDocumentationGenerator_init (some "k") ⟨some "envtok", none, some "e"⟩).gemini_key
      = some "k" ∧
    (AIDocumentationGenerator_init none ⟨some "envtok", none, some "e"⟩).elevenlabs_key
      = some "e" := by
  have h := credential_resolution "k" ⟨some "envtok", none, some "e"⟩ (by decide)
  exact ⟨h.1, h.2.1, h.2.2 none⟩

/-- C5 counterexample: `GitHubClient.create_repo` forwards its `private`
parameter as given — invoked with `private = true` against a provider that
materialises the requested visibility, the provider call in the trace
carries `private = true` and the returned record's visibility flag is
`true`, so the claim that the repository is always requested as publicly
visible regardless of the parameter's value is false at this input. -/
theorem create_repo_private_request :
    create_repo pEcho "demo" true "desc" =
      (.ok { name := "demo", url := "https://example.invalid/demo",
             «private» := true, description := "desc" },
       [.createRepo "demo" true "desc"]) := rfl

/-- C5 (amended): the dispatch handler `mcp_create_repo` hard-codes
`private = False`, so every repository created through the exposed operation
is requested as public — the trace's creation call carries `private = false`
— and, when the provider materialises the requested visibility, the
returned record's flag is false-for-private. `create_repo` itself forwards
its `private` argument, whose Python default is `False`. -/
theorem mcp_create_repo_always_public (p : GHProvider) (env : Env) (token : Option String)
    (name description t : String) (htok : GitHubClient_token token env = .ok t)
    (hecho : ∀ n b d r, p.createRepoP n b d = .ok r → r.«private» = b) :
    (mcp_create_repo p env name description token).2 = [.createRepo name false description] ∧
    ∀ d, (mcp_create_repo p env name description token).1 = .result d →
      d.«private» = false := by
  cases hc : p.createRepoP name false description with
  | error e =>
    constructor
    · simp [mcp_create_repo, htok, create_repo, hc]
    · intro d hd
      simp [mcp_create_repo, htok, create_repo, hc] at hd
  | ok r =>
    constructor
    · simp [mcp_create_repo, htok, create_repo, hc]
    · intro d hd
      simp [mcp_create_repo, htok, create_repo, hc] at hd
      rw [← hd]
      exact hecho name false description r hc

/-- Witness for C5 (amended) at concrete inputs: through the dispatch
handler the creation request carries `private = false` and the returned
record's flag is false. -/
theorem mcp_create_repo_always_public_witness :
    (mcp_create_repo pEcho ⟨some "tok", none, none⟩ "demo" "desc" none).2 =
      [.createRepo "demo" false "desc"] ∧
    ({ name := "demo", url := "https://example.invalid/demo",
       «private» := false, description := "desc" } : RepoDict).«private» = false := by
  have h := mcp_create_repo_always_public pEcho ⟨some "tok", none, none⟩ none "demo" "desc"
    "tok" rfl (by intro n b d r hh; cases hh; rfl)
  exact ⟨h.1, h.2 { name := "demo", url := "https://example.invalid/demo",
                    «private» := false, description := "desc" } rfl⟩

/-- C7 counterexample: with a well-formed repoId and an existence check
failing with status 500 and provider message "boom", `commit_file` does not
let the `GithubException` propagate unchanged — the caller receives the
outer handler's wrapped Provider error "Failed to commit file: boom". -/
theorem commit_file_non404_wrapped :
    (commit_file p500 "a/b" "f.txt" "c" "m").1 =
      .error (.wrapped "Failed to commit file: boom") ∧
    PyErr.wrapped "Failed to commit file: boom" ≠
      PyErr.githubErr ⟨500, some "boom", "500 boom"⟩ := by
  constructor
  · rfl
  · decide

/-- C7 (amended): a provider failure of the existence check whose status is
not 404 aborts the write — neither a create nor an update call is issued —
and is re-raised out of the inner handler, then wrapped by the operation's
outer uniform handler into the `Exception("Failed to commit file: ...")`
Provider error carrying the provider's message. -/
theorem commit_file_non404_aborts (p : GHProvider) (repoId path content message : String)
    (hwf : wellFormedRepoId repoId) (hrepo : p.getRepo repoId = .ok ())
    (e : GithubExc) (he : p.getContents repoId path = .error e) (h404 : e.status ≠ 404) :
    commit_file p repoId path content message =
      (.error (.wrapped ("Failed to commit file: " ++ ghMsg e)),
       [.getRepo repoId, .getContents repoId path]) := by
  simp [commit_file, validate_ok_of_wellFormed hwf, hrepo, he, h404]

/-- Witness for C7 (amended) at concrete inputs. -/
theorem commit_file_non404_aborts_witness :
    commit_file p500 "a/b" "f.txt" "c" "m" =
      (.error (.wrapped "Failed to commit file: boom"),
       [.getRepo "a/b", .getContents "a/b" "f.txt"]) :=
  commit_file_non404_aborts p500 "a/b" "f.txt" "c" "m"
    ⟨"a", "b", by decide, by decide, by decide, by decide, by decide⟩ rfl
    ⟨500, some "boom", "500 boom"⟩ rfl (by decide)

theorem lookupFile_setFile (st : RepoState) (path content : String) :
    lookupFile (setFile st path content) path = some content := by
  simp [lookupFile, setFile, List.find?]

/-- C9: against the modelled backend, for every well-formed repoId a
`commit_file` of content X at a path succeeds (creating or updating), the
backend then stores X at the path, and a subsequent `read_file` of the path
returns a record whose content equals X (the transport's UTF-8
encode/decode being the identity of the model). -/
theorem commit_then_read_roundtrip (st : RepoState) (repoId path content message : String)
    (hwf : wellFormedRepoId repoId) :
    exceptOk (ghWorldCommit st repoId path content message).1 = true ∧
    (ghWorldCommit st repoId path content message).2 = setFile st path content ∧
    (read_file (mkProvider (setFile st path content)) repoId path).1 =
      .ok { path := path, content := content,
            url := "https://example.invalid/" ++ path, size := content.utf8ByteSize } := by
  have hval := validate_ok_of_wellFormed hwf
  have hread : (read_file (mkProvider (setFile st path content)) repoId path).1 =
      .ok { path := path, content := content,
            url := "https://example.invalid/" ++ path, size := content.utf8ByteSize } := by
    simp [read_file, hval, mkProvider, lookupFile_setFile]
  refine ⟨?_, ?_, hread⟩ <;>
  · cases hlk : lookupFile st path with
    | none =>
      simp [ghWorldCommit, commit_file, hval, mkProvider, hlk, exceptOk]
    | some c =>
      simp [ghWorldCommit, commit_file, hval, mkProvider, hlk, exceptOk]

/-- Witness for C9 at concrete inputs: committing "hello" to "f.txt" in an
empty repository and reading it back yields "hello". -/
theorem commit_then_read_roundtrip_witness :
    exceptOk (ghWorldCommit ⟨[]⟩ "a/b" "f.txt" "hello" "msg").1 = true ∧
    (ghWorldCommit ⟨[]⟩ "a/b" "f.txt" "hello" "msg").2 = setFile ⟨[]⟩ "f.txt" "hello" ∧
    (read_file (mkProvider (setFile ⟨[]⟩ "f.txt" "hello")) "a/b" "f.txt").1 =
      .ok { path := "f.txt", content := "hello",
            url := "https://example.invalid/f.txt", size := "hello".utf8ByteSize } :=
  commit_then_read_roundtrip ⟨[]⟩ "a/b" "f.txt" "hello" "msg"
    ⟨"a", "b", by decide, by decide, by decide, by decide, by decide⟩

/-- C10: in `read_file` with a well-formed repoId, every provider failure
with status 404 — whether the repository lookup or the content fetch fails —
yields the NotFound failure whose message is exactly "File not found: "
followed by the path; every non-404 provider failure yields the generic
wrapped Provider error. -/
theorem read_file_notfound_messages (p : GHProvider) (repoId path : String)
    (hwf : wellFormedRepoId repoId) :
    (∀ e, p.getRepo repoId = .error e → e.status = 404 →
        read_file p repoId path =
          (.error (.wrapped ("File not found: " ++ path)), [.getRepo repoId]))
  ∧ (∀ e, p.getRepo repoId = .ok () → p.getContents repoId path = .error e → e.status = 404 →
        read_file p repoId path =
          (.error (.wrapped ("File not found: " ++ path)),
           [.getRepo repoId, .getContents repoId path]))
  ∧ (∀ e, p.getRepo repoId = .error e → e.status ≠ 404 →
        read_file p repoId path =
          (.error (.wrapped ("Failed to read file: " ++ ghMsg e)), [.getRepo repoId]))
  ∧ (∀ e, p.getRepo repoId = .ok () → p.getContents repoId path = .error e → e.status ≠ 404 →
        read_file p repoId path =
          (.error (.wrapped ("Failed to read file: " ++ ghMsg e)),
           [.getRepo repoId, .getContents repoId path])) := by
  have hval := validate_ok_of_wellFormed hwf
  refine ⟨?_, ?_, ?_, ?_⟩
  · intro e he h404
    simp [read_file, hval, he, h404]
  · intro e hr he h404
    simp [read_file, hval, hr, he, h404]
  · intro e he h404
    simp [read_file, hval, he, h404]
  · intro e hr he h404
    simp [read_file, hval, hr, he, h404]

/-- Witness for C10 at concrete inputs: the repository lookup failing with
404 yields the message "File not found: f.txt". -/
theorem read_file_notfound_messages_witness :
    read_file pRepo404 "a/b" "f.txt" =
      (.error (.wrapped "File not found: f.txt"), [.getRepo "a/b"]) :=
  (read_file_notfound_messages pRepo404 "a/b" "f.txt"
      ⟨"a", "b", by decide, by decide, by decide, by decide, by decide⟩).1
    ⟨404, some "Not Found", "404 Not Found"⟩ rfl rfl

end GitNexusClaims
